import Mathlib

/-!
A shallow embedding of the tool-invocation demo (REST / manual
function-calling / MCP clients and servers for a translate tool and a
speech-to-text tool), together with theorems checking the system's
specification against this embedding.

Sources embedded:
- `server/fc.py` — FastAPI server publishing tool metadata at `GET /tools`
  and executing tools at `POST /tools/translate` and `POST /tools/stt`
  (`server/rest.py` has the identical endpoint logic under `/api/...`).
- `client/fc.py` — HTTP function-calling client: fetches tool metadata,
  converts it to the provider's FunctionDeclaration shape, lets the
  provider pick a tool, and executes the pick against the server.
- `client/mcp_client.py` — MCP client: renders tools into a text prompt,
  parses the provider's JSON decision, and calls the selected tool.

External effects (the LLM call itself, audio recording, file I/O) are
modelled as parameters or explicit data; machinery the web framework
supplies for the declarations in the source (pydantic request-model
validation, route matching) is embedded with its documented semantics.
-/

namespace McpDemo

/-- JSON values, the payload type of every wire message in the system. -/
inductive JsonValue where
  | str (s : String)
  | num (n : Int)
  | bool (b : Bool)
  | null
  | arr (xs : List JsonValue)
  | obj (fields : List (String × JsonValue))

/-- First-occurrence field lookup in a JSON object's field list. -/
def jget (k : String) : List (String × JsonValue) → Option JsonValue
  | [] => none
  | (k2, v) :: rest => if k2 = k then some v else jget k rest

/-- One property declaration inside a JSON-Schema `properties` object, as
written in `server/fc.py` `list_tools` (a `type`, and optionally a
`description`). -/
structure PropSpec where
  type : String
  description : Option String
deriving DecidableEq, Repr

/-- The `parameters` JSON-Schema object of a tool, as written in
`server/fc.py` `list_tools`: named properties and a `required` list (an
absent `required` key means the empty list). -/
structure ParamSchema where
  properties : List (String × PropSpec)
  required : List String
deriving DecidableEq, Repr

/-- Does a JSON value match a declared JSON-Schema primitive type name? -/
def matchesType : String → JsonValue → Bool
  | "string", .str _ => true
  | "number", .num _ => true
  | "boolean", .bool _ => true
  | _, _ => false

/-- JSON-Schema object validation: every required field is present, and
every declared property that is present has the declared type. -/
def satisfiesSchema (s : ParamSchema) (args : List (String × JsonValue)) : Bool :=
  s.required.all (fun f => (jget f args).isSome) &&
  s.properties.all (fun p =>
    match jget p.1 args with
    | some v => matchesType p.2.type v
    | none => true)

/-- Tool metadata as served by `GET /tools` (`ToolMetadata` in
`server/fc.py`): name, description, JSON-Schema parameters. -/
structure ToolMetadata where
  name : String
  description : String
  parameters : ParamSchema
deriving DecidableEq, Repr

/-- The `parameters` literal of the `translate` tool in `list_tools`. -/
def translate_params : ParamSchema :=
  { properties := [("text", ⟨"string", some "The text to translate to Thai"⟩)],
    required := ["text"] }

/-- The `parameters` literal of the `stt` tool in `list_tools` (no
properties, no `required` key). -/
def stt_params : ParamSchema := { properties := [], required := [] }

/-- The registry published by `GET /tools` in `server/fc.py` `list_tools`,
in the order the source constructs it. -/
def list_tools : List ToolMetadata :=
  [ { name := "translate",
      description := "Translates the given text to Thai language.",
      parameters := translate_params },
    { name := "stt",
      description := "Transcribes audio to text.",
      parameters := stt_params } ]

/-- JSON serialization of one property spec (what pydantic emits for the
dict literals in `list_tools`). -/
def propSpecToJson (p : PropSpec) : JsonValue :=
  .obj (("type", .str p.type) ::
    (match p.description with
     | some d => [("description", .str d)]
     | none => []))

/-- JSON serialization of a parameter schema; the `required` key is
omitted when the source dict omits it (empty list). -/
def schemaToJson (s : ParamSchema) : JsonValue :=
  .obj (("type", .str "object") ::
    ("properties", .obj (s.properties.map (fun p => (p.1, propSpecToJson p.2)))) ::
    (if s.required.isEmpty then []
     else [("required", .arr (s.required.map JsonValue.str))]))

/-- JSON serialization of one tool's metadata. -/
def toolToJson (t : ToolMetadata) : JsonValue :=
  .obj [("name", .str t.name), ("description", .str t.description),
        ("parameters", schemaToJson t.parameters)]

/-- The JSON body `GET /tools` answers with. -/
def tools_endpoint_response : JsonValue := .arr (list_tools.map toolToJson)

/-- Client-side parse of one property spec from JSON. -/
def parsePropSpec : JsonValue → Option PropSpec
  | .obj fields =>
    match jget "type" fields with
    | some (.str ty) =>
      some ⟨ty, match jget "description" fields with
                | some (.str d) => some d
                | _ => none⟩
    | _ => none
  | _ => none

/-- Client-side parse of a parameter schema from JSON; a missing
`required` key parses as the empty list. -/
def parseSchema : JsonValue → Option ParamSchema
  | .obj fields =>
    match jget "properties" fields with
    | some (.obj props) =>
      match props.mapM (fun kv => (parsePropSpec kv.2).map (fun sp => (kv.1, sp))) with
      | some ps =>
        match jget "required" fields with
        | some (.arr xs) =>
          match xs.mapM (fun v => match v with | .str s => some s | _ => none) with
          | some req => some ⟨ps, req⟩
          | none => none
        | some _ => none
        | none => some ⟨ps, []⟩
      | none => none
    | _ => none
  | _ => none

/-- Client-side parse of one tool's metadata from JSON. -/
def parseTool : JsonValue → Option ToolMetadata
  | .obj fields =>
    match jget "name" fields, jget "description" fields, jget "parameters" fields with
    | some (.str n), some (.str d), some pj =>
      (parseSchema pj).map (fun s => ⟨n, d, s⟩)
    | _, _, _ => none
  | _ => none

/-- Embeds `fetch_tools_from_server` in `client/fc.py`: `GET /tools` and decode
the JSON body into the tool-metadata list. -/
def fetch_tools_from_server : Option (List ToolMetadata) :=
  match tools_endpoint_response with
  | .arr xs => xs.mapM parseTool
  | _ => none

/-- A Python exception as raised by a tool handler: the message that
`str(e)` yields, and the interpreter-level traceback, which no code in the
servers ever serializes. -/
structure PyException where
  message : String
  stackTrace : List String
deriving DecidableEq, Repr

/-- The observable outcome of one tool endpoint invocation:
HTTP 200 with a JSON body, 422 naming the first failing request field
(pydantic validation), 500 with `detail = str(e)` (the
`except Exception` arm), or 404 when no route matches the path. -/
inductive EndpointResult where
  | ok (body : List (String × JsonValue))
  | validationError (field : String)
  | handlerError (detail : String)
  | notFound

/-- Pydantic validation of `TranslateRequest(BaseModel): text: str` in
`server/fc.py`: the body must carry a string field `text`; otherwise the
request is rejected naming `text` as the failing field. -/
def parseTranslateRequest (body : List (String × JsonValue)) : Except String String :=
  match jget "text" body with
  | some (.str s) => .ok s
  | _ => .error "text"

/-- Embeds `translate_endpoint` in `server/fc.py` (and `translate` in
`server/rest.py`): validate the body as a `TranslateRequest`, run the
translation handler (`translate_text`, external — a parameter here), wrap
success as `TranslateResponse` and any handler exception as
`HTTPException(500, str(e))`. -/
def translate_endpoint (handler : String → Except PyException String)
    (body : List (String × JsonValue)) : EndpointResult :=
  match parseTranslateRequest body with
  | .error f => .validationError f
  | .ok text =>
    match handler text with
    | .ok result => .ok [("translated_text", .str result)]
    | .error e => .handlerError e.message

/-- The `" ".join(...)` followed by `.strip()` applied to the transcribed
segments in the stt endpoints. -/
def joinSegments (segs : List String) : String :=
  (String.intercalate " " segs).trim

/-- Embeds `stt_endpoint` in `server/fc.py` (and `speech_to_text` in
`server/rest.py`): transcribe the uploaded audio with the whisper model
(external — a parameter here), wrap success as `STTResponse` and any
handler exception as `HTTPException(500, str(e))`; the temp-file write and
unlink are file I/O around the handler call. -/
def stt_endpoint (transcribe : List Nat → Except PyException (List String))
    (audio : List Nat) : EndpointResult :=
  match transcribe audio with
  | .ok segs => .ok [("transcribed_text", .str (joinSegments segs))]
  | .error e => .handlerError e.message

/-- FastAPI route matching for a `POST /tools/<name>` request in
`server/fc.py`: the two declared routes in declaration order, any other
path answers 404; a body of the wrong kind for the matched route fails
request validation naming the missing request field. -/
def route_tool_post (handler : String → Except PyException String)
    (transcribe : List Nat → Except PyException (List String))
    (name : String) (body : Option (List (String × JsonValue)))
    (upload : Option (List Nat)) : EndpointResult :=
  if name = "translate" then
    match body with
    | some fields => translate_endpoint handler fields
    | none => .validationError "text"
  else if name = "stt" then
    match upload with
    | some audio => stt_endpoint transcribe audio
    | none => .validationError "audio"
  else .notFound

/-- The server-side mutable resources the endpoints can touch (the temp
files the stt endpoints write and unlink). `list_tools` touches none of
them. -/
structure ServerState where
  tmpFiles : List (String × List Nat)
deriving DecidableEq, Repr

/-- Embeds `list_tools` in `server/fc.py` as an operation on the server state: its
body constructs and returns the metadata literal and reads or writes no
server state. -/
def list_tools_endpoint (s : ServerState) : List ToolMetadata × ServerState :=
  (list_tools, s)

/-- The Decision Provider's native function-declaration shape
(`types.FunctionDeclaration` as used in `client/fc.py`). -/
structure FunctionDeclaration where
  name : String
  description : String
  parameters : ParamSchema
deriving DecidableEq, Repr

/-- Embeds `convert_to_gemini_tool` in `client/fc.py`: copy the server metadata's
`name`, `description` and `parameters` into a `FunctionDeclaration`. -/
def convert_to_gemini_tool (t : ToolMetadata) : FunctionDeclaration :=
  { name := t.name, description := t.description, parameters := t.parameters }

/-- A function call the provider asks for: `function_call.name` and
`function_call.args`. -/
structure FunctionCall where
  name : String
  args : List (String × JsonValue)

/-- One content part of a provider response: an optional text payload and
an optional function call (the two shapes `generate_with_remote_tools`
inspects). -/
structure ResponsePart where
  text : Option String
  function_call : Option FunctionCall

/-- One response candidate; `content.parts` is all the client reads. -/
structure ResponseCandidate where
  parts : List ResponsePart

/-- A provider response as seen by `generate_with_remote_tools`: the list
of candidates. -/
structure ProviderResponse where
  candidates : List ResponseCandidate

/-- A request body the HTTP client can send: a JSON object (translate) or
a multipart file upload carrying raw audio bytes (stt). -/
inductive HttpBody where
  | json (fields : List (String × JsonValue))
  | multipart (audio : List Nat)

/-- One HTTP POST the client sends over the Transport. -/
structure HttpRequest where
  path : String
  body : HttpBody

/-- Embeds `execute_tool_on_server` in `client/fc.py`, up to emitting the POST:
for `stt` the client records audio locally (the recorded bytes are the
`recordedAudio` parameter) and uploads it, discarding the decision's
arguments; for every other name it sends the decision's arguments as the
JSON body, unchanged. -/
def execute_tool_on_server (toolName : String)
    (arguments : List (String × JsonValue)) (recordedAudio : List Nat) :
    HttpRequest :=
  if toolName = "stt" then
    { path := "/tools/" ++ toolName, body := .multipart recordedAudio }
  else
    { path := "/tools/" ++ toolName, body := .json arguments }

/-- What one decision step of `generate_with_remote_tools` does:
return a string directly, dispatch the selected call (after which the
result is handed back to the provider for final-answer synthesis,
external to this embedding), or raise an uncaught `IndexError`
(`response.candidates[0].content.parts[0]` on an empty parts list). -/
inductive StepResult where
  | finalText (t : String)
  | dispatched (call : FunctionCall) (request : HttpRequest)
  | crash

/-- The function-call arm of `generate_with_remote_tools`: if the first
part carries a function call, execute it on the server; otherwise return
the literal fallback string. -/
def handleFunctionCall (p : ResponsePart) (recordedAudio : List Nat) :
    StepResult × List HttpRequest :=
  match p.function_call with
  | some fc =>
    let req := execute_tool_on_server fc.name fc.args recordedAudio
    (.dispatched fc req, [req])
  | none => (.finalText "Unexpected response format", [])

/-- Embeds `generate_with_remote_tools` in `client/fc.py`, as a function of the
provider's first response; the second component collects every POST sent
over the Transport during the step. The text branch is guarded by Python
truthiness (`first_part.text` must be non-empty); `hasattr` checks are
modelled as presence of the optional field. -/
def generate_with_remote_tools (resp : ProviderResponse)
    (recordedAudio : List Nat) : StepResult × List HttpRequest :=
  match resp.candidates with
  | [] => (.finalText "No response from Gemini", [])
  | c :: _ =>
    match c.parts with
    | [] => (.crash, [])
    | p :: _ =>
      match p.text with
      | some t =>
        if t = "" then handleFunctionCall p recordedAudio
        else (.finalText t, [])
      | none => handleFunctionCall p recordedAudio

/-- A provider response whose single part selects a tool by name with the
given arguments. -/
def mkToolResp (name : String) (args : List (String × JsonValue)) :
    ProviderResponse :=
  ⟨[⟨[⟨none, some ⟨name, args⟩⟩]⟩]⟩

/-- Does the decision step end in one of the two decision outcomes
(final text or a selected tool call), as opposed to an uncaught fault? -/
def isDecisionOutcome : StepResult → Bool
  | .finalText _ => true
  | .dispatched _ _ => true
  | .crash => false

/-- The tool decision the MCP client parses from the provider's JSON
answer (`{"name": ..., "arguments": ...}`). -/
structure ToolDecision where
  name : String
  arguments : List (String × JsonValue)

/-- One line of the tool list rendered into the MCP client's prompt
(`f"- {tool.name}: {tool.description}"` in `llm_decide_tool`). -/
def toolDescriptionLine (t : ToolMetadata) : String :=
  "- " ++ t.name ++ ": " ++ t.description

/-- Embeds `tool_descriptions` in `llm_decide_tool`: the lines joined with
newlines. -/
def tool_descriptions (ts : List ToolMetadata) : String :=
  String.intercalate "\n" (ts.map toolDescriptionLine)

/-- The text before the tool list in `llm_decide_tool`'s prompt. -/
def promptHead : String :=
  "You are a tool selector. Based on the user input, decide which tool to call.\n\nAvailable tools:\n"

/-- The text between the tool list and the user input in the prompt. -/
def promptMid : String := "\n\nUser input: "

/-- The text after the user input in the prompt (JSON-format examples;
literal braces written as hex escapes). -/
def promptTail : String :=
  "\n\nRespond with ONLY a JSON object in this format:\n\x7b\"name\": \"tool_name\", \"arguments\": \x7b\"arg1\": \"value1\"\x7d\x7d\n\nIf the tool takes no arguments, use empty object: \x7b\"arguments\": \x7b\x7d\x7d\nFor stt tool, return: \x7b\"name\": \"stt\", \"arguments\": \x7b\"audio_base64\": \"PLACEHOLDER\"\x7d\x7d\n"

/-- The complete prompt `llm_decide_tool` hands the provider: everything
the provider ever sees about a tool is its line in `tool_descriptions`. -/
def llm_prompt (userInput : String) (ts : List ToolMetadata) : String :=
  promptHead ++ tool_descriptions ts ++ promptMid ++ userInput ++ promptTail

/-- The call the MCP client's main loop sends for a decision: for `stt` it
records audio, base64-encodes it and overwrites the decision's arguments
with `{"audio_base64": <encoded>}`; otherwise it forwards the decision's
arguments. -/
def mcp_call_arguments (d : ToolDecision) (audioBase64 : String) :
    String × List (String × JsonValue) :=
  if d.name = "stt" then (d.name, [("audio_base64", .str audioBase64)])
  else (d.name, d.arguments)

/-- For a decision selecting a non-stt tool, the step dispatches exactly
one POST carrying the decision's arguments as the unaltered JSON body. -/
lemma dispatch_requests (name : String) (args : List (String × JsonValue))
    (audio : List Nat) (h : name ≠ "stt") :
    generate_with_remote_tools (mkToolResp name args) audio =
      (.dispatched ⟨name, args⟩ ⟨"/tools/" ++ name, .json args⟩,
       [⟨"/tools/" ++ name, .json args⟩]) := by
  simp [generate_with_remote_tools, mkToolResp, handleFunctionCall,
    execute_tool_on_server, h]

/-- The published `translate` schema and the pydantic request model agree:
arguments violate the schema exactly when `TranslateRequest` validation
rejects them naming `text`. -/
lemma translate_schema_pydantic (args : List (String × JsonValue)) :
    satisfiesSchema translate_params args = false ↔
      parseTranslateRequest args = .error "text" := by
  unfold satisfiesSchema translate_params parseTranslateRequest
  cases h : jget "text" args with
  | none => simp [h]
  | some v => cases v <;> simp [h, matchesType]

/-- The rendered tool list of the MCP prompt is a function of the tools'
names and descriptions alone. -/
lemma tool_descriptions_name_desc_only (ts₁ ts₂ : List ToolMetadata)
    (h : ts₁.map (fun t => (t.name, t.description)) =
         ts₂.map (fun t => (t.name, t.description))) :
    tool_descriptions ts₁ = tool_descriptions ts₂ := by
  unfold tool_descriptions
  have key : ∀ ts : List ToolMetadata,
      ts.map toolDescriptionLine =
        (ts.map (fun t => (t.name, t.description))).map
          (fun p => "- " ++ p.1 ++ ": " ++ p.2) := by
    intro ts
    rw [List.map_map]
    rfl
  rw [key, key, h]

/-- C1 counterexample: the Decision Provider selects `translate` with
empty arguments; the step sends the call over the Transport even though
the arguments violate the published `translate` schema, so schema-invalid
calls do reach the Transport. -/
theorem unvalidated_args_reach_transport :
    (generate_with_remote_tools (mkToolResp "translate" []) []).2 =
      [⟨"/tools/translate", .json []⟩] ∧
    satisfiesSchema translate_params [] = false := by
  constructor
  · rw [dispatch_requests "translate" [] [] (by decide)]
    rfl
  · rfl

/-- C1 (amended): the Session performs no argument validation before
dispatch — for a non-stt tool the decision's arguments are forwarded to
the Transport unchanged, schema-invalid or not; only the Registry's own
request validation rejects a schema-invalid translate call, with a
validation error naming the field `text`. -/
theorem session_forwards_args_unvalidated (name : String)
    (args : List (String × JsonValue)) (audio : List Nat)
    (handler : String → Except PyException String)
    (hname : name ≠ "stt")
    (hbad : satisfiesSchema translate_params args = false) :
    (generate_with_remote_tools (mkToolResp name args) audio).2 =
      [⟨"/tools/" ++ name, .json args⟩] ∧
    translate_endpoint handler args = .validationError "text" := by
  constructor
  · rw [dispatch_requests name args audio hname]
  · have hp := (translate_schema_pydantic args).mp hbad
    simp [translate_endpoint, hp]

/-- Witness for C1 (amended) at `translate` with empty arguments. -/
theorem session_forwards_args_unvalidated_witness :
    (generate_with_remote_tools (mkToolResp "translate" []) []).2 =
      [⟨"/tools/translate", .json []⟩] ∧
    translate_endpoint (fun _ => .ok "ok") [] = .validationError "text" :=
  session_forwards_args_unvalidated "translate" [] []
    (fun _ => .ok "ok") (by decide) (by rfl)

/-- C2 counterexample: the Decision Provider selects the unregistered name
`delete_everything`; the Session still sends a POST over the Transport
(and the embedding has no local `UnknownToolError` to return), so the
Transport is invoked for a name outside the discovered set. -/
theorem unknown_tool_reaches_transport :
    (generate_with_remote_tools (mkToolResp "delete_everything" []) []).2 =
      [⟨"/tools/delete_everything", .json []⟩] ∧
    (list_tools.map ToolMetadata.name).contains "delete_everything" = false := by
  constructor
  · rw [dispatch_requests "delete_everything" [] [] (by decide)]
    rfl
  · rfl

/-- C2 (amended): a selected name outside the discovered set is forwarded
to the Transport unchecked; the failure is remote — the server's router
matches no `/tools/<name>` route and answers 404 — and no local
`UnknownToolError` is produced. -/
theorem unknown_tool_is_remote_404 (name : String)
    (args : List (String × JsonValue)) (audio : List Nat)
    (handler : String → Except PyException String)
    (transcribe : List Nat → Except PyException (List String))
    (h1 : name ≠ "translate") (h2 : name ≠ "stt") :
    (generate_with_remote_tools (mkToolResp name args) audio).2 =
      [⟨"/tools/" ++ name, .json args⟩] ∧
    route_tool_post handler transcribe name (some args) none = .notFound := by
  constructor
  · rw [dispatch_requests name args audio h2]
  · simp [route_tool_post, h1, h2]

/-- Witness for C2 (amended) at the unregistered name
`delete_everything`. -/
theorem unknown_tool_is_remote_404_witness :
    (generate_with_remote_tools (mkToolResp "delete_everything" []) []).2 =
      [⟨"/tools/delete_everything", .json []⟩] ∧
    route_tool_post (fun _ => .ok "ok") (fun _ => .ok [])
      "delete_everything" (some []) none = .notFound :=
  unknown_tool_is_remote_404 "delete_everything" [] []
    (fun _ => .ok "ok") (fun _ => .ok []) (by decide) (by decide)

/-- C3: a fault raised by a tool handler during execution is converted by
the endpoint into a structured error result carrying `str(e)` (modelled as
the exception's message) — for both the translate and the stt endpoint —
and the wire-level error representation is independent of the exception's
stack trace. -/
theorem registry_wraps_handler_faults (body : List (String × JsonValue))
    (text : String) (e e₂ : PyException) (trace trace₂ : List String)
    (handler : String → Except PyException String)
    (transcribe : List Nat → Except PyException (List String))
    (audio : List Nat)
    (hp : parseTranslateRequest body = .ok text)
    (hf : handler text = .error e)
    (hf₂ : transcribe audio = .error e₂) :
    translate_endpoint handler body = .handlerError e.message ∧
    stt_endpoint transcribe audio = .handlerError e₂.message ∧
    translate_endpoint (fun _ => .error ⟨e.message, trace⟩) body =
      translate_endpoint (fun _ => .error ⟨e.message, trace₂⟩) body := by
  refine ⟨?_, ?_, ?_⟩
  · simp [translate_endpoint, hp, hf]
  · simp [stt_endpoint, hf₂]
  · simp [translate_endpoint, hp]

/-- Witness for C3: concrete failing handlers for both endpoints. -/
theorem registry_wraps_handler_faults_witness :
    translate_endpoint (fun _ => .error ⟨"boom", ["frame a"]⟩)
      [("text", .str "x")] = .handlerError "boom" ∧
    stt_endpoint (fun _ => .error ⟨"model gone", []⟩) [1, 2] =
      .handlerError "model gone" ∧
    translate_endpoint (fun _ => .error ⟨"boom", ["frame a"]⟩)
        [("text", .str "x")] =
      translate_endpoint (fun _ => .error ⟨"boom", ["frame b"]⟩)
        [("text", .str "x")] :=
  registry_wraps_handler_faults [("text", .str "x")] "x"
    ⟨"boom", ["frame a"]⟩ ⟨"model gone", []⟩ ["frame a"] ["frame b"]
    (fun _ => .error ⟨"boom", ["frame a"]⟩)
    (fun _ => .error ⟨"model gone", []⟩) [1, 2] rfl rfl rfl

/-- C4: calling the translate endpoint with `{text: "hello"}` invokes the
handler and answers ok with a `translated_text` payload; calling it with
`{}` fails request validation naming the field `text`, and the result is
independent of the handler — the handler is never invoked. -/
theorem translate_scenario (handler handler₂ : String → Except PyException String)
    (r : String) (hok : handler "hello" = .ok r) :
    translate_endpoint handler [("text", .str "hello")] =
      .ok [("translated_text", .str r)] ∧
    translate_endpoint handler [] = .validationError "text" ∧
    translate_endpoint handler [] = translate_endpoint handler₂ [] := by
  refine ⟨?_, rfl, rfl⟩
  simp [translate_endpoint, parseTranslateRequest, jget, hok]

/-- Witness for C4 with a concrete handler. -/
theorem translate_scenario_witness :
    translate_endpoint (fun s => .ok ("TH " ++ s)) [("text", .str "hello")] =
      .ok [("translated_text", .str "TH hello")] ∧
    translate_endpoint (fun s => .ok ("TH " ++ s)) [] = .validationError "text" ∧
    translate_endpoint (fun s => .ok ("TH " ++ s)) [] =
      translate_endpoint (fun _ => .error ⟨"down", []⟩) [] :=
  translate_scenario (fun s => .ok ("TH " ++ s)) (fun _ => .error ⟨"down", []⟩)
    "TH hello" rfl

/-- C5: discovery returns exactly the registry's published descriptor
list — the client's fetch decodes the `GET /tools` response back to the
very sequence the server constructs, in registration order — and the
published names contain no duplicate. -/
theorem discovery_returns_published_registry :
    fetch_tools_from_server = some list_tools ∧
    (list_tools.map ToolMetadata.name).Nodup := by
  refine ⟨rfl, ?_⟩
  decide

/-- C6 counterexample: a provider response whose first candidate has an
empty parts list makes the decision step crash with an uncaught
`IndexError` (`parts[0]`) — neither of the two decision outcomes, and not
a `DecisionError` either. -/
theorem empty_parts_crash :
    isDecisionOutcome (generate_with_remote_tools ⟨[⟨[]⟩]⟩ []).1 = false := rfl

/-- C6 (amended): a first part matching neither shape yields the fixed
fallback string as an ordinary text outcome — no `DecisionError` value
exists — while a response whose first candidate has no parts raises an
uncaught `IndexError` that propagates to the caller. -/
theorem decision_step_shapes (p : ResponsePart) (ps : List ResponsePart)
    (c : ResponseCandidate) (cs cs₂ : List ResponseCandidate)
    (audio : List Nat)
    (h1 : p.text = none ∨ p.text = some "")
    (h2 : p.function_call = none)
    (h3 : c.parts = []) :
    (generate_with_remote_tools ⟨⟨p :: ps⟩ :: cs⟩ audio).1 =
      .finalText "Unexpected response format" ∧
    (generate_with_remote_tools ⟨c :: cs₂⟩ audio).1 = .crash := by
  constructor
  · rcases h1 with h | h <;>
      simp [generate_with_remote_tools, handleFunctionCall, h, h2]
  · obtain ⟨parts⟩ := c
    simp only at h3
    subst h3
    rfl

/-- Witness for C6 (amended): a part with neither text nor function call,
and a candidate with no parts. -/
theorem decision_step_shapes_witness :
    (generate_with_remote_tools ⟨[⟨[⟨none, none⟩]⟩]⟩ []).1 =
      .finalText "Unexpected response format" ∧
    (generate_with_remote_tools ⟨[⟨[]⟩]⟩ []).1 = .crash :=
  decision_step_shapes ⟨none, none⟩ [] ⟨[]⟩ [] [] [] (Or.inl rfl) rfl rfl

/-- C7 counterexample: two descriptors agreeing on name and description
but with different parameter schemas render to the same MCP prompt, so
`parameterSchema` is not recoverable from the adapter output the MCP
client hands the provider. -/
theorem mcp_adapter_drops_parameters :
    llm_prompt "hi" [⟨"translate", "demo", translate_params⟩] =
      llm_prompt "hi" [⟨"translate", "demo", stt_params⟩] ∧
    translate_params ≠ stt_params := by
  refine ⟨rfl, ?_⟩
  decide

/-- C7 (amended): the HTTP function-calling client's conversion to the
provider's FunctionDeclaration shape is lossless for name, description
and parameters, while the MCP client's prompt hands the provider only
names and descriptions — the prompt is a function of those two fields
alone. -/
theorem adapter_field_recovery (t : ToolMetadata) (u : String)
    (ts₁ ts₂ : List ToolMetadata)
    (h : ts₁.map (fun t => (t.name, t.description)) =
         ts₂.map (fun t => (t.name, t.description))) :
    (convert_to_gemini_tool t).name = t.name ∧
    (convert_to_gemini_tool t).description = t.description ∧
    (convert_to_gemini_tool t).parameters = t.parameters ∧
    llm_prompt u ts₁ = llm_prompt u ts₂ := by
  refine ⟨rfl, rfl, rfl, ?_⟩
  unfold llm_prompt
  rw [tool_descriptions_name_desc_only ts₁ ts₂ h]

/-- Witness for C7 (amended) at concrete descriptors differing only in
their schemas. -/
theorem adapter_field_recovery_witness :
    (convert_to_gemini_tool ⟨"translate", "d", translate_params⟩).name =
      "translate" ∧
    (convert_to_gemini_tool ⟨"translate", "d", translate_params⟩).description =
      "d" ∧
    (convert_to_gemini_tool ⟨"translate", "d", translate_params⟩).parameters =
      translate_params ∧
    llm_prompt "hi" [⟨"n", "d", translate_params⟩] =
      llm_prompt "hi" [⟨"n", "d", stt_params⟩] :=
  adapter_field_recovery ⟨"translate", "d", translate_params⟩ "hi"
    [⟨"n", "d", translate_params⟩] [⟨"n", "d", stt_params⟩] rfl

/-- C8: when the provider's first part is a (non-empty, hence truthy)
text, the Session returns that text directly and sends nothing over the
Transport during the step. -/
theorem no_tool_selected_returns_text (t : String) (fc : Option FunctionCall)
    (ps : List ResponsePart) (cs : List ResponseCandidate) (audio : List Nat)
    (h : t ≠ "") :
    generate_with_remote_tools ⟨⟨⟨some t, fc⟩ :: ps⟩ :: cs⟩ audio =
      (.finalText t, []) := by
  simp [generate_with_remote_tools, h]

/-- Witness for C8 at the text `"hi"`. -/
theorem no_tool_selected_returns_text_witness :
    generate_with_remote_tools ⟨[⟨[⟨some "hi", none⟩]⟩]⟩ [] =
      (.finalText "hi", []) :=
  no_tool_selected_returns_text "hi" none [] [] [] (by decide)

/-- C9: the discovery endpoint is idempotent and side-effect-free on the
remote — two consecutive calls return the same descriptor sequence and
leave the server state unchanged. -/
theorem discover_idempotent_and_pure (s : ServerState) :
    (list_tools_endpoint ((list_tools_endpoint s).2)).1 =
      (list_tools_endpoint s).1 ∧
    (list_tools_endpoint s).2 = s :=
  ⟨rfl, rfl⟩

/-- C10: for the stt tool the dispatched request ignores the decision's
arguments — two runs differing only in those arguments build the same
request, in both the HTTP client (local recording uploaded) and the MCP
client (arguments overwritten with the recorded audio's base64). -/
theorem stt_request_independent_of_decision_args
    (a₁ a₂ : List (String × JsonValue)) (audio : List Nat) (b64 : String) :
    execute_tool_on_server "stt" a₁ audio =
      execute_tool_on_server "stt" a₂ audio ∧
    mcp_call_arguments ⟨"stt", a₁⟩ b64 = mcp_call_arguments ⟨"stt", a₂⟩ b64 := by
  constructor <;> simp [execute_tool_on_server, mcp_call_arguments]

end McpDemo
